import Mathlib

/-!
Verification development for the api-tester HTTP service.

The service (main.go and the extended variant with the SSE broker) keeps two
in-memory maps guarded by mutexes — `devices : map[string]bool` written by
`updateHandler`, and `gpsLocations : map[string]GPSLocation` written by
`gpsHandler` — and a `Broker` whose single `listen` goroutine is the sole
mutator of the client set, reached through the `newClients`, `closingClients`
and `Notifier` channels.

Each handler runs to completion on one request, so it is embedded as a pure
function from the query parameters and the current store state to the
HTTP-visible result together with the new store state.  The broker's `listen`
loop is embedded as a step function on the broker state, one step per message
received on one of its channels.  `strconv.ParseBool` and `strconv.ParseFloat`
are the parsing collaborators the handlers call; they are modelled below
(`parseBool` exactly; `parseFloat` for the decimal and special-value syntax,
with the float value kept as an exact decimal significand/scale pair —
hex-float syntax, digit underscores and binary rounding/overflow of the
`float64` result are not modelled, and no claim here depends on them).
-/

/-- Value produced by `strconv.ParseFloat`: a finite value `num / 10^den`
(kept as an exact decimal rather than a binary `float64`), an infinity, or
NaN. -/
inductive GoFloat where
  | finite (num : ℤ) (den : ℕ)
  | inf (neg : Bool)
  | nan
deriving DecidableEq

/-- Numeric value of a list of decimal digit characters. -/
def digitsVal (ds : List Char) : ℕ :=
  ds.foldl (fun a c => a * 10 + (c.toNat - 48)) 0

/-- Finite parse result assembled from sign, integer digits, fraction digits
and a decimal exponent: the value `±(ip.fp) * 10^e`, stored exactly. -/
def mkFinite (neg : Bool) (ip fp : List Char) (e : ℤ) : GoFloat :=
  let m : ℤ := ((digitsVal ip * 10 ^ fp.length + digitsVal fp : ℕ) : ℤ)
  let sm : ℤ := if neg then -m else m
  let ex : ℤ := e - fp.length
  if 0 ≤ ex then .finite (sm * ((10 ^ ex.toNat : ℕ) : ℤ)) 0
  else .finite sm ex.natAbs

/-- Optional exponent part (`e`/`E`, optional sign, at least one digit) at
the end of the input; anything else trailing makes the whole parse fail,
as `strconv.ParseFloat` requires the entire string to be consumed. -/
def parseExp (neg : Bool) (ip fp : List Char) (cs : List Char) : Option GoFloat :=
  match cs with
  | [] => some (mkFinite neg ip fp 0)
  | c :: r =>
    if c = 'e' ∨ c = 'E' then
      let (esign, r2) : Bool × List Char :=
        match r with
        | '+' :: t => (false, t)
        | '-' :: t => (true, t)
        | t => (false, t)
      let (ed, r3) := r2.span Char.isDigit
      if ed.isEmpty ∨ ¬ r3.isEmpty then none
      else some (mkFinite neg ip fp (if esign then -(digitsVal ed : ℤ) else (digitsVal ed : ℤ)))
    else none

/-- Decimal mantissa after the optional sign: digits, optional dot, digits,
with at least one digit overall, then an optional exponent. -/
def parseDecimal (neg : Bool) (cs : List Char) : Option GoFloat :=
  let (ip, rest1) := cs.span Char.isDigit
  match rest1 with
  | '.' :: r =>
    let (fp, rest2) := r.span Char.isDigit
    if ip.isEmpty ∧ fp.isEmpty then none else parseExp neg ip fp rest2
  | _ => if ip.isEmpty then none else parseExp neg ip [] rest1

/-- Model of `strconv.ParseFloat(s, 64)` as called by `gpsHandler`: `none`
when Go returns a non-nil error, `some v` with the parsed value otherwise.
Covers the special values (`NaN`, signed `Inf`/`Infinity`, case-insensitive,
where a signed NaN is rejected just as in Go) and the decimal syntax. -/
def parseFloat (s : String) : Option GoFloat :=
  match s.data with
  | [] => none
  | cs =>
    if cs.map Char.toLower = ['n', 'a', 'n'] then some .nan
    else
      let (neg, rest) : Bool × List Char :=
        match cs with
        | '+' :: r => (false, r)
        | '-' :: r => (true, r)
        | r => (false, r)
      let rl := rest.map Char.toLower
      if rl = ['i', 'n', 'f'] ∨ rl = ['i', 'n', 'f', 'i', 'n', 'i', 't', 'y'] then
        some (.inf neg)
      else parseDecimal neg rest

/-- Model of `strconv.ParseBool` as called by `updateHandler`: the exact
literal set accepted by the Go standard library. -/
def parseBool (s : String) : Option Bool :=
  if s = "1" ∨ s = "t" ∨ s = "T" ∨ s = "true" ∨ s = "TRUE" ∨ s = "True" then some true
  else if s = "0" ∨ s = "f" ∨ s = "F" ∨ s = "false" ∨ s = "FALSE" ∨ s = "False" then some false
  else none

/-- Rendering of a bool by `fmt` verb `%v`, used in the `/update` response. -/
def goBoolString (b : Bool) : String :=
  if b then "true" else "false"

/-- Left-pad a digit string with zeros to width 6. -/
def padZeros6 (s : String) : String :=
  String.mk (List.replicate (6 - s.length) '0') ++ s

/-- Rendering of a float by `fmt` verb `%.6f`, used in the `/gps` response:
six digits after the decimal point, rounded; `+Inf`/`-Inf`/`NaN` for the
special values.  (Ties at the seventh decimal are rounded away from zero
here; the binary-float pipeline can differ on such ties, which no decimal
input considered by the spec produces.) -/
def fmt6 : GoFloat → String
  | .nan => "NaN"
  | .inf false => "+Inf"
  | .inf true => "-Inf"
  | .finite num den =>
    let sgn := if num < 0 then "-" else ""
    let a := num.natAbs
    let n6 : ℕ :=
      if den ≤ 6 then a * 10 ^ (6 - den)
      else
        let d := 10 ^ (den - 6)
        a / d + (if d ≤ a % d * 2 then 1 else 0)
    sgn ++ toString (n6 / 1000000) ++ "." ++ padZeros6 (toString (n6 % 1000000))

/-- The `GPSLocation` struct stored in `gpsLocations`. -/
structure GPSLocation where
  ID : String
  Lat : GoFloat
  Lon : GoFloat
deriving DecidableEq

/-- The two global stores: `gpsLocations` and `devices`.  A Go map is
modelled as a partial lookup function. -/
structure ServerState where
  gpsLocations : String → Option GPSLocation
  devices : String → Option Bool

/-- Map assignment `m[k] = v`: replaces any prior entry for `k`. -/
def mapUpdate {β : Type} (m : String → Option β) (k : String) (v : β) :
    String → Option β :=
  fun k2 => if k2 = k then some v else m k2

/-- HTTP-visible outcome of one handler call: `http.Error(w, msg, status)`
or the 200 body written with `fmt.Fprintf`. -/
inductive HandlerResult where
  | error (status : ℕ) (msg : String)
  | ok (body : String)
deriving DecidableEq

/-- Whether the handler rejected the request. -/
def HandlerResult.isErr : HandlerResult → Bool
  | .error _ _ => true
  | .ok _ => false

/-- Embedding of `updateHandler`: validates `id` and `value`, parses the
bool, writes `devices[id]`, and answers `Device {id} set to {v}\n`. -/
def updateHandler (id val : String) (s : ServerState) : HandlerResult × ServerState :=
  if id = "" then (.error 400 "Missing id param", s)
  else if val = "" then (.error 400 "Missing value param", s)
  else
    match parseBool val with
    | none => (.error 400 "Invalid boolean value", s)
    | some parsed =>
      (.ok ("Device " ++ id ++ " set to " ++ goBoolString parsed ++ "\n"),
       { s with devices := mapUpdate s.devices id parsed })

/-- Embedding of `gpsHandler`: validates `id`, parses `lat` then `lon`,
writes `gpsLocations[id]`, and answers `GPS updated for {id}: {lat:.6f},
{lon:.6f}\n`. -/
def gpsHandler (id latStr lonStr : String) (s : ServerState) : HandlerResult × ServerState :=
  if id = "" then (.error 400 "Missing id param", s)
  else
    match parseFloat latStr with
    | none => (.error 400 "Invalid lat param", s)
    | some lat =>
      match parseFloat lonStr with
      | none => (.error 400 "Invalid lon param", s)
      | some lon =>
        (.ok ("GPS updated for " ++ id ++ ": " ++ fmt6 lat ++ ", " ++ fmt6 lon ++ "\n"),
         { s with gpsLocations := mapUpdate s.gpsLocations id (GPSLocation.mk id lat lon) })

/-- The store with both maps empty, as at process start. -/
def emptyState : ServerState :=
  ⟨fun _ => none, fun _ => none⟩

/-- One subscriber's inbound channel (`messageChan` in `Broker.ServeHTTP`).
The channel is unbuffered, so the non-blocking send in `Broker.listen`
succeeds exactly when the subscriber goroutine is blocked at its receive;
`ready` records that availability, and `received` the events the subscriber
has been handed so far. -/
structure SSEClientChan where
  ready : Bool
  received : List String
deriving DecidableEq

/-- State owned by the broker's `listen` goroutine: the registered client
channels, keyed by an abstract channel identity. -/
structure BrokerState where
  clients : ℕ → Option SSEClientChan

/-- A message reaching the `listen` loop: registration via `newClients`,
deregistration via `closingClients`, an event via `Notifier`, plus the
subscriber-side transition of becoming (or ceasing to be) ready to receive,
which in Go is the subscriber goroutine arriving at or leaving its channel
receive. -/
inductive BrokerMsg where
  | newClient (c : ℕ)
  | closeClient (c : ℕ)
  | setReady (c : ℕ) (r : Bool)
  | notify (e : String)
deriving DecidableEq

/-- The non-blocking send (select with a default branch) performed by
`Broker.listen` when broadcasting an event to one client channel: deliver if
the receiver is available, otherwise drop the event for this client.  Total:
it never fails and never blocks. -/
def trySend (e : String) (ch : SSEClientChan) : SSEClientChan :=
  if ch.ready then { ch with received := ch.received ++ [e] } else ch

/-- One iteration of the `for`/`select` loop in `Broker.listen`, the sole
mutator of the client set. -/
def listenStep (m : BrokerMsg) (s : BrokerState) : BrokerState :=
  match m with
  | .newClient c => ⟨fun k => if k = c then some ⟨false, []⟩ else s.clients k⟩
  | .closeClient c => ⟨fun k => if k = c then none else s.clients k⟩
  | .setReady c r =>
    ⟨fun k =>
      if k = c then (s.clients k).map (fun ch => { ch with ready := r })
      else s.clients k⟩
  | .notify e => ⟨fun k => (s.clients k).map (trySend e)⟩

/-- The `listen` loop run over a whole sequence of incoming messages. -/
def processMsgs (ms : List BrokerMsg) (s : BrokerState) : BrokerState :=
  ms.foldl (fun st m => listenStep m st) s

/-- The broker with no registered clients, as created by `NewBroker`. -/
def brokerInit : BrokerState :=
  ⟨fun _ => none⟩

/-- The empty string is not an accepted boolean literal. -/
lemma parseBool_empty : parseBool "" = none := by decide

/-- The empty string does not parse as a float. -/
lemma parseFloat_empty : parseFloat "" = none := by decide

/-- An `updateHandler` call never touches the GPS map, whichever branch it
takes. -/
lemma updateHandler_gpsLocations_eq (id val : String) (s : ServerState) :
    (updateHandler id val s).2.gpsLocations = s.gpsLocations := by
  by_cases hid : id = ""
  · simp [updateHandler, hid]
  · by_cases hval : val = ""
    · simp [updateHandler, hid, hval]
    · cases hpb : parseBool val with
      | none => simp [updateHandler, hid, hval, hpb]
      | some b => simp [updateHandler, hid, hval, hpb]

/-- A `gpsHandler` call never touches the attendance map, whichever branch
it takes. -/
lemma gpsHandler_devices_eq (id latStr lonStr : String) (s : ServerState) :
    (gpsHandler id latStr lonStr s).2.devices = s.devices := by
  by_cases hid : id = ""
  · simp [gpsHandler, hid]
  · cases hla : parseFloat latStr with
    | none => simp [gpsHandler, hid, hla]
    | some lat =>
      cases hlo : parseFloat lonStr with
      | none => simp [gpsHandler, hid, hla, hlo]
      | some lon => simp [gpsHandler, hid, hla, hlo]

/-- C1: for every non-empty `id` and every `rawValue` accepted by the boolean
parser, running `updateHandler` (the `handleAttendance` of the spec) and then
reading the `devices` store at `id` yields exactly the parsed boolean,
whatever entry — if any — the store held for `id` before. -/
theorem attendance_roundtrip (id rawValue : String) (s : ServerState) (b : Bool)
    (hid : id ≠ "") (hv : parseBool rawValue = some b) :
    (updateHandler id rawValue s).2.devices id = some b := by
  have hvne : rawValue ≠ "" := by
    intro h
    rw [h, parseBool_empty] at hv
    exact Option.noConfusion hv
  simp [updateHandler, hid, hvne, hv, mapUpdate]

/-- Witness for C1 at the spec's own scenario. -/
theorem attendance_roundtrip_witness :
    (updateHandler "dev-1" "true" emptyState).2.devices "dev-1" = some true :=
  attendance_roundtrip "dev-1" "true" emptyState true (by decide) (by decide)

/-- C2: for every non-empty `id` and raw coordinates accepted by the float
parser, running `gpsHandler` (the `handleLocation` of the spec) and then
reading the `gpsLocations` store at `id` yields exactly the record with the
two parsed values, replacing any prior entry for `id`. -/
theorem gps_roundtrip (id rawLat rawLon : String) (s : ServerState)
    (lat lon : GoFloat)
    (hid : id ≠ "") (hla : parseFloat rawLat = some lat)
    (hlo : parseFloat rawLon = some lon) :
    (gpsHandler id rawLat rawLon s).2.gpsLocations id
      = some (GPSLocation.mk id lat lon) := by
  simp [gpsHandler, hid, hla, hlo, mapUpdate]

/-- Witness for C2 at the spec's own scenario. -/
theorem gps_roundtrip_witness :
    (gpsHandler "dev-2" "37.7749" "-122.4194" emptyState).2.gpsLocations "dev-2"
      = some (GPSLocation.mk "dev-2" (.finite 377749 4) (.finite (-1224194) 4)) :=
  gps_roundtrip "dev-2" "37.7749" "-122.4194" emptyState
    (.finite 377749 4) (.finite (-1224194) 4)
    (by decide) (by decide) (by decide)

/-- C3: `updateHandler` fails with the missing-field error for `id` exactly
when `id` is empty (regardless of the other parameter), with the
missing-field error for `value` when `id` is non-empty and `rawValue` is
empty, with the invalid-boolean error when `rawValue` is non-empty and not an
accepted literal, and succeeds otherwise; the final equivalence states that
these are the only failure cases. -/
theorem attendance_error_cases (id val : String) (s : ServerState) :
    (id = "" → (updateHandler id val s).1 = .error 400 "Missing id param")
  ∧ (id ≠ "" → val = "" → (updateHandler id val s).1 = .error 400 "Missing value param")
  ∧ (id ≠ "" → val ≠ "" → parseBool val = none →
      (updateHandler id val s).1 = .error 400 "Invalid boolean value")
  ∧ (∀ b, id ≠ "" → parseBool val = some b → (updateHandler id val s).1.isErr = false)
  ∧ ((updateHandler id val s).1.isErr = true ↔
      (id = "" ∨ val = "" ∨ parseBool val = none)) := by
  by_cases hid : id = ""
  · simp [updateHandler, hid, HandlerResult.isErr]
  · by_cases hval : val = ""
    · simp [updateHandler, hid, hval, HandlerResult.isErr, parseBool_empty]
    · cases hpb : parseBool val with
      | none => simp [updateHandler, hid, hval, hpb, HandlerResult.isErr]
      | some b => simp [updateHandler, hid, hval, hpb, HandlerResult.isErr]

/-- Witness for C3: empty `id` is rejected even with a valid boolean. -/
theorem attendance_error_cases_witness :
    (updateHandler "" "true" emptyState).1 = .error 400 "Missing id param" :=
  (attendance_error_cases "" "true" emptyState).1 rfl

/-- C4: a rejected request leaves the whole store state — both maps, every
entry — exactly as it was, for `updateHandler` as well as for `gpsHandler`. -/
theorem failing_call_preserves_stores (id val latStr lonStr : String)
    (s : ServerState) :
    ((updateHandler id val s).1.isErr = true → (updateHandler id val s).2 = s)
  ∧ ((gpsHandler id latStr lonStr s).1.isErr = true →
      (gpsHandler id latStr lonStr s).2 = s) := by
  constructor
  · intro h
    by_cases hid : id = ""
    · simp [updateHandler, hid]
    · by_cases hval : val = ""
      · simp [updateHandler, hid, hval]
      · cases hpb : parseBool val with
        | none => simp [updateHandler, hid, hval, hpb]
        | some b => simp [updateHandler, hid, hval, hpb, HandlerResult.isErr] at h
  · intro h
    by_cases hid : id = ""
    · simp [gpsHandler, hid]
    · cases hla : parseFloat latStr with
      | none => simp [gpsHandler, hid, hla]
      | some lat =>
        cases hlo : parseFloat lonStr with
        | none => simp [gpsHandler, hid, hla, hlo]
        | some lon => simp [gpsHandler, hid, hla, hlo, HandlerResult.isErr] at h

/-- Witness for C4 at the spec's two rejection scenarios. -/
theorem failing_call_preserves_stores_witness :
    (updateHandler "" "true" emptyState).2 = emptyState
  ∧ (gpsHandler "dev-3" "abc" "1.0" emptyState).2 = emptyState :=
  ⟨(failing_call_preserves_stores "" "true" "abc" "1.0" emptyState).1 (by decide),
   (failing_call_preserves_stores "" "true" "abc" "1.0" emptyState).2 (by decide)⟩

/-- C5 counterexample: the success body written by `updateHandler` carries a
trailing newline (`fmt.Fprintf` format `Device %s set to %v\n`), so at the
spec's own scenario the response is not exactly `Device dev-1 set to true`. -/
theorem response_newline_counterexample :
    (updateHandler "dev-1" "true" emptyState).1 = .ok "Device dev-1 set to true\n"
  ∧ (updateHandler "dev-1" "true" emptyState).1 ≠ .ok "Device dev-1 set to true" := by
  decide

/-- C5 (amended): on success `updateHandler` answers exactly
`Device {id} set to {bool}` and `gpsHandler` answers exactly
`GPS updated for {id}: {lat:.6f}, {lon:.6f}`, each followed by a trailing
newline, with both coordinates formatted by the `%.6f` verb. -/
theorem success_response_format (aid gid val latStr lonStr : String)
    (s : ServerState) (b : Bool) (lat lon : GoFloat)
    (haid : aid ≠ "") (hb : parseBool val = some b)
    (hgid : gid ≠ "")
    (hla : parseFloat latStr = some lat) (hlo : parseFloat lonStr = some lon) :
    (updateHandler aid val s).1
      = .ok ("Device " ++ aid ++ " set to " ++ goBoolString b ++ "\n")
  ∧ (gpsHandler gid latStr lonStr s).1
      = .ok ("GPS updated for " ++ gid ++ ": " ++ fmt6 lat ++ ", " ++ fmt6 lon ++ "\n") := by
  have hvne : val ≠ "" := by
    intro h
    rw [h, parseBool_empty] at hb
    exact Option.noConfusion hb
  constructor
  · simp [updateHandler, haid, hvne, hb]
  · simp [gpsHandler, hgid, hla, hlo]

/-- Witness for C5 (amended) at the spec's two scenarios, evaluating the
`%.6f` model on the concrete coordinates. -/
theorem success_response_format_witness :
    (updateHandler "dev-1" "true" emptyState).1 = .ok "Device dev-1 set to true\n"
  ∧ (gpsHandler "dev-2" "37.7749" "-122.4194" emptyState).1
      = .ok "GPS updated for dev-2: 37.774900, -122.419400\n" := by
  have h := success_response_format "dev-1" "dev-2" "true" "37.7749" "-122.4194"
    emptyState true (.finite 377749 4) (.finite (-1224194) 4)
    (by decide) (by decide) (by decide) (by decide) (by decide)
  exact ⟨by rw [h.1]; decide, by rw [h.2]; decide⟩

/-- C6: the two maps are independent: an `updateHandler` call — succeeding
or failing — leaves the GPS map untouched, and a `gpsHandler` call leaves
the attendance map untouched. -/
theorem maps_independent (id val latStr lonStr : String) (s : ServerState) :
    (updateHandler id val s).2.gpsLocations = s.gpsLocations
  ∧ (gpsHandler id latStr lonStr s).2.devices = s.devices :=
  ⟨updateHandler_gpsLocations_eq id val s, gpsHandler_devices_eq id latStr lonStr s⟩

/-- Invariant of the GPS store: the `ID` field of every stored record agrees
with the key under which it is stored. -/
def LocStoreInv (s : ServerState) : Prop :=
  ∀ k rec, s.gpsLocations k = some rec → rec.ID = k

/-- C9: both handlers preserve the key/ID agreement invariant of the GPS
store — `gpsHandler` because it writes `GPSLocation{ID: id, ...}` at key
`id`, `updateHandler` because it never writes that map. -/
theorem loc_store_id_matches_key (id val latStr lonStr : String)
    (s : ServerState) (hinv : LocStoreInv s) :
    LocStoreInv (gpsHandler id latStr lonStr s).2
  ∧ LocStoreInv (updateHandler id val s).2 := by
  constructor
  · by_cases hid : id = ""
    · simpa [gpsHandler, hid] using hinv
    · cases hla : parseFloat latStr with
      | none => simpa [gpsHandler, hid, hla] using hinv
      | some lat =>
        cases hlo : parseFloat lonStr with
        | none => simpa [gpsHandler, hid, hla, hlo] using hinv
        | some lon =>
          intro k rec h
          have h2 : (gpsHandler id latStr lonStr s).2.gpsLocations
              = mapUpdate s.gpsLocations id (GPSLocation.mk id lat lon) := by
            simp [gpsHandler, hid, hla, hlo]
          rw [h2] at h
          simp only [mapUpdate] at h
          by_cases hk : k = id
          · rw [if_pos hk] at h
            cases h
            exact hk.symm
          · rw [if_neg hk] at h
            exact hinv k rec h
  · intro k rec h
    rw [updateHandler_gpsLocations_eq] at h
    exact hinv k rec h

/-- Witness for C9: the invariant holds after a write into the empty store. -/
theorem loc_store_id_matches_key_witness :
    LocStoreInv (gpsHandler "dev-2" "1.5" "2.5" emptyState).2 :=
  (loc_store_id_matches_key "dev-2" "x" "1.5" "2.5" emptyState
    (fun _ _ h => Option.noConfusion h)).1

/-- C10: with a non-empty `id`, an unparseable `lat` — the empty string
included — makes `gpsHandler` fail with the invalid-lat error whatever `lon`
is, leaving the store untouched, so a missing `lat` surfaces as an invalid
number, not as a missing field. -/
theorem invalid_lat_before_lon (id latStr lonStr : String) (s : ServerState)
    (hid : id ≠ "") (hla : parseFloat latStr = none) :
    (gpsHandler id latStr lonStr s).1 = .error 400 "Invalid lat param"
  ∧ (gpsHandler id latStr lonStr s).2 = s := by
  constructor <;> simp [gpsHandler, hid, hla]

/-- Witness for C10: empty `lat` together with an unparseable `lon` is
reported as invalid `lat`. -/
theorem invalid_lat_before_lon_witness :
    (gpsHandler "dev-3" "" "not-a-number" emptyState).1
      = .error 400 "Invalid lat param"
  ∧ (gpsHandler "dev-3" "" "not-a-number" emptyState).2 = emptyState :=
  invalid_lat_before_lon "dev-3" "" "not-a-number" emptyState
    (by decide) parseFloat_empty

/-- A step of the listen loop other than a broadcast of `e` never makes `e`
appear in a client's channel. -/
lemma listenStep_no_new_event (c : ℕ) (e : String) (m : BrokerMsg)
    (hm : ∀ e2, m = .notify e2 → e2 ≠ e) (s : BrokerState)
    (hs : ∀ ch, s.clients c = some ch → e ∉ ch.received) :
    ∀ ch, (listenStep m s).clients c = some ch → e ∉ ch.received := by
  intro ch hch
  cases m with
  | newClient c1 =>
    simp only [listenStep] at hch
    by_cases h : c = c1
    · rw [if_pos h] at hch
      cases hch
      exact List.not_mem_nil e
    · rw [if_neg h] at hch
      exact hs ch hch
  | closeClient c1 =>
    simp only [listenStep] at hch
    by_cases h : c = c1
    · rw [if_pos h] at hch
      exact Option.noConfusion hch
    · rw [if_neg h] at hch
      exact hs ch hch
  | setReady c1 r =>
    simp only [listenStep] at hch
    by_cases h : c = c1
    · rw [if_pos h] at hch
      cases h1 : s.clients c with
      | none => rw [h1] at hch; exact Option.noConfusion hch
      | some ch0 =>
        rw [h1] at hch
        cases hch
        exact hs ch0 h1
    · rw [if_neg h] at hch
      exact hs ch hch
  | notify e2 =>
    have he2 : e2 ≠ e := hm e2 rfl
    simp only [listenStep] at hch
    cases h1 : s.clients c with
    | none => rw [h1] at hch; exact Option.noConfusion hch
    | some ch0 =>
      rw [h1] at hch
      cases hch
      unfold trySend
      by_cases hr : ch0.ready = true
      · rw [if_pos hr]
        intro hmem
        rcases List.mem_append.mp hmem with hmem | hmem
        · exact hs ch0 h1 hmem
        · exact he2 (List.mem_singleton.mp hmem).symm
      · rw [if_neg hr]
        exact hs ch0 h1

/-- Over a whole message sequence containing no broadcast of `e`, the event
`e` never appears in client `c`'s channel if it was not there already. -/
lemma processMsgs_no_event (c : ℕ) (e : String) :
    ∀ (ms : List BrokerMsg) (s : BrokerState),
      (∀ e2, BrokerMsg.notify e2 ∈ ms → e2 ≠ e) →
      (∀ ch, s.clients c = some ch → e ∉ ch.received) →
      ∀ ch, (processMsgs ms s).clients c = some ch → e ∉ ch.received := by
  intro ms
  induction ms with
  | nil =>
    intro s _ hs
    simpa [processMsgs] using hs
  | cons m ms ih =>
    intro s hms hs
    have h1 := listenStep_no_new_event c e m
      (fun e2 hm => hms e2 (by rw [hm] at *; exact List.mem_cons_self _ _)) s hs
    have h2 := ih (listenStep m s)
      (fun e2 hmem => hms e2 (List.mem_cons_of_mem _ hmem)) h1
    simpa [processMsgs] using h2

/-- C7: broadcasting an event is a total step that reports nothing back to
the publisher; a registered client whose channel cannot accept (its receiver
is not ready, i.e. its inbound buffer is full) keeps its channel exactly as
it was — that copy of the event is silently dropped — and no client ever
receives more than one copy from a single broadcast. -/
theorem broker_nonblocking_drop (s : BrokerState) (e : String) (c : ℕ)
    (ch : SSEClientChan)
    (hreg : s.clients c = some ch) (hfull : ch.ready = false) :
    (listenStep (.notify e) s).clients c = some ch
  ∧ ∀ c2 ch2 ch2', s.clients c2 = some ch2 →
      (listenStep (.notify e) s).clients c2 = some ch2' →
      ch2'.received.count e ≤ ch2.received.count e + 1 := by
  constructor
  · simp [listenStep, hreg, trySend, hfull]
  · intro c2 ch2 ch2' h1 h2
    simp only [listenStep, h1, Option.map_some'] at h2
    cases h2
    unfold trySend
    by_cases hr : ch2.ready = true
    · rw [if_pos hr]
      simp
    · rw [if_neg hr]
      exact Nat.le_succ _

/-- Witness for C7: a freshly registered, not-yet-ready client is skipped by
a broadcast. -/
theorem broker_nonblocking_drop_witness :
    (listenStep (.notify "ev") (listenStep (.newClient 0) brokerInit)).clients 0
      = some (SSEClientChan.mk false []) :=
  (broker_nonblocking_drop (listenStep (.newClient 0) brokerInit) "ev" 0
    (SSEClientChan.mk false []) (by decide) rfl).1

/-- C8: a subscriber registered (and ready) before a broadcast receives
exactly one copy of the event — its channel becomes its old contents plus
that one event — while a subscriber registered afterwards starts with an
empty channel and, as long as the event is not broadcast again, never holds
that earlier event. -/
theorem broker_subscribe_ordering (s : BrokerState) (e : String) (c c2 : ℕ)
    (ch : SSEClientChan) (ms : List BrokerMsg)
    (hreg : s.clients c = some ch) (hready : ch.ready = true)
    (hms : ∀ e2, BrokerMsg.notify e2 ∈ ms → e2 ≠ e) :
    (listenStep (.notify e) s).clients c
      = some (SSEClientChan.mk true (ch.received ++ [e]))
  ∧ ∀ ch2, (processMsgs ms (listenStep (.newClient c2) s)).clients c2 = some ch2 →
      e ∉ ch2.received := by
  constructor
  · obtain ⟨r, l⟩ := ch
    cases hready
    simp [listenStep, hreg, trySend]
  · exact processMsgs_no_event c2 e ms (listenStep (.newClient c2) s) hms
      (by
        intro ch2 h
        simp only [listenStep, if_pos rfl] at h
        cases h
        exact List.not_mem_nil e)

/-- Witness for C8: one ready subscriber receives the event exactly once. -/
theorem broker_subscribe_ordering_witness :
    (listenStep (.notify "ev")
        (listenStep (.setReady 0 true) (listenStep (.newClient 0) brokerInit))).clients 0
      = some (SSEClientChan.mk true ["ev"]) :=
  (broker_subscribe_ordering
    (listenStep (.setReady 0 true) (listenStep (.newClient 0) brokerInit))
    "ev" 0 1 (SSEClientChan.mk true []) [] (by decide) rfl
    (fun e2 h => absurd h (List.not_mem_nil _))).1
